import Mathlib

/-!
Verification development for the fetcher-ts repository: a typed HTTP
response dispatcher in two near-duplicate implementations,
`TypeboxFetcher` (src/packages/fetcher-typebox/src/lib/fetcher-typebox.ts)
and `ZodFetcher` (the richer variant with `safeRun`, rich error classes
and response cloning, given in src/unnamed/part_004 together with its
errors module).

The embedding is shallow and executable:
* `Promise`-returning methods that may reject are modelled in `Except`:
  `Promise.reject e` is `Except.error e`, a resolved value is `Except.ok`.
  In an async function, `return Promise.reject(e)` inside a `try` block
  exits the block before the rejection is adopted, so such rejections do
  NOT reach the surrounding `catch`; only the awaited transport call can
  throw into the outer catch.  The model reflects this: the outer catch
  of `run` applies only to the transport outcome.
* JavaScript `Map` becomes an association list with `Map.set` replace-or-
  append semantics (`mapSet`) and first-match lookup (`mapGet`).
* JavaScript functions carry an intrinsic `.name`; handlers are therefore
  `NamedFn` values (an anonymous arrow function has name "").
* Thrown/rejected JavaScript values are modelled by the error inductives
  `TbError` / `ZodError`, mirroring the repository's error classes and
  their fields; every thrown value is an `Error` instance in the model.
* Bodies and schemas: the TypeBox implementation's `defaultParser` is
  modelled over a concrete JSON-like value universe `JValue` and schema
  universe `TBSchema`, with `tcheck`/`tcast` modelling the external
  TypeBox library's `TypeCompiler ... Check` and `Value.Cast` on that
  universe.  The Zod implementation's parser is an injected capability
  (as in the source constructor), so its schema and body types stay
  abstract type parameters.
-/

namespace FetcherTS

mutual
/-- JSON-like value universe over which the TypeBox pipeline is modelled. -/
inductive JValue where
  | str (s : String)
  | num (n : Int)
  | obj (fields : JFields)
  deriving DecidableEq

/-- Fields of a JSON object, in property order. -/
inductive JFields where
  | fnil
  | fcons (key : String) (val : JValue) (rest : JFields)
  deriving DecidableEq
end

/-- Property access `fields[key]` (first match, as JS objects have distinct keys). -/
def JFields.lookup : JFields → String → Option JValue
  | .fnil, _ => none
  | .fcons k v r, key => if k = key then some v else r.lookup key

/-- The list of property names of an object, in order. -/
def JFields.keys : JFields → List String
  | .fnil => []
  | .fcons k _ r => k :: r.keys

mutual
/-- TypeBox schema universe: `Type.String()`, `Type.Number()`,
`Type.Object({...})` (with the TypeBox default of allowing additional
properties). -/
inductive TBSchema where
  | tString
  | tNumber
  | tObject (props : TBProps)
  deriving DecidableEq

/-- Declared properties of an object schema, in order. -/
inductive TBProps where
  | pnil
  | pcons (key : String) (sch : TBSchema) (rest : TBProps)
  deriving DecidableEq
end

/-- The declared property names of an object schema, in order. -/
def TBProps.keys : TBProps → List String
  | .pnil => []
  | .pcons k _ r => k :: r.keys

mutual
/-- Model of the external TypeBox `TypeCompiler.Compile(schema).Check(value)`
on the `JValue` universe: strings and numbers check their constructors; an
object checks when every declared property is present and checks, extra
properties being allowed (the schemas in this universe carry TypeBox's
default `additionalProperties` behaviour). -/
def tcheck : TBSchema → JValue → Bool
  | .tString, .str _ => true
  | .tNumber, .num _ => true
  | .tObject props, .obj fields => tcheckProps props fields
  | _, _ => false

/-- Check of each declared property of an object schema against an object. -/
def tcheckProps : TBProps → JFields → Bool
  | .pnil, _ => true
  | .pcons k sch rest, fields =>
      (match fields.lookup k with
       | some v => tcheck sch v
       | none => false) && tcheckProps rest fields
end

mutual
/-- Model of TypeBox `Value.Create`: the default value of a schema,
used by `Value.Cast` for properties missing from the input. -/
def tdefault : TBSchema → JValue
  | .tString => .str ""
  | .tNumber => .num 0
  | .tObject props => .obj (tdefaultProps props)

/-- Default object fields for a property list. -/
def tdefaultProps : TBProps → JFields
  | .pnil => .fnil
  | .pcons k sch rest => .fcons k (tdefault sch) (tdefaultProps rest)
end

mutual
/-- Model of the external TypeBox `Value.Cast` as invoked by
`defaultParser` with `{ ...schema, additionalProperties: false }`: an
object result is built from the schema's declared properties only, so
properties of the input not declared in the schema are dropped; a value
already of the right primitive shape is kept, and anything else is
replaced by the schema's default value. -/
def tcast : TBSchema → JValue → JValue
  | .tString, .str s => .str s
  | .tNumber, .num n => .num n
  | .tObject props, .obj fields => .obj (tcastProps props fields)
  | s, _ => tdefault s

/-- Cast of an object's fields through the declared properties of a schema:
exactly the declared keys survive, in declaration order. -/
def tcastProps : TBProps → JFields → JFields
  | .pnil, _ => .fnil
  | .pcons k sch rest, fields =>
      .fcons k
        (match fields.lookup k with
         | some v => tcast sch v
         | none => tdefault sch)
        (tcastProps rest fields)
end

/-- String coercion of a `JValue` as JS template literals perform it
(objects display as "[object Object]"). -/
def JValue.jsString : JValue → String
  | .str s => s
  | .num n => toString n
  | .obj _ => "[object Object]"

/-- Response descriptor: the numeric status, the content-type header, and
the raw body text (what `clone.text()` yields). -/
structure Response where
  status : Nat
  contentType : Option String
  bodyText : String
  deriving DecidableEq

/-- A JavaScript function value together with its intrinsic `.name`
property (an anonymous arrow function has name ""). -/
structure NamedFn (α β : Type) where
  name : String
  fn : α → β

/-- JS `Map.get`: the value stored at a key, if any. -/
def mapGet {α : Type} : List (Nat × α) → Nat → Option α
  | [], _ => none
  | (k, v) :: rest, key => if k = key then some v else mapGet rest key

/-- JS `Map.set`: replace the value at an existing key in place,
otherwise append the new binding at the end. -/
def mapSet {α : Type} : List (Nat × α) → Nat → α → List (Nat × α)
  | [], key, v => [(key, v)]
  | (k, w) :: rest, key, v =>
      if k = key then (key, v) :: rest else (k, w) :: mapSet rest key v

/-- Errors thrown in the TypeBox implementation.  The file
fetcher-typebox.ts declares `HandlerNotSetError` and
`JsonDeserializationError` (each extending `Error` and carrying only a
message) and otherwise throws plain `Error` values; `plainError` holds a
plain error's `.name` and `.message`. -/
inductive TbError where
  | plainError (name message : String)
  | handlerNotSetError (code : Nat)
  | jsonDeserializationError (message : String)
  deriving DecidableEq

/-- The `.name` property of a TypeBox-side error. -/
def TbError.name : TbError → String
  | .plainError n _ => n
  | .handlerNotSetError _ => "HandlerNotSetError"
  | .jsonDeserializationError _ => "JsonDeserializationError"

/-- The `.message` property of a TypeBox-side error. -/
def TbError.message : TbError → String
  | .plainError _ m => m
  | .handlerNotSetError c => "No handler registered for status code " ++ toString c
  | .jsonDeserializationError m => m

/-- `String(error)` / template-literal interpolation of an `Error`
(`Error.prototype.toString`). -/
def TbError.jsString (e : TbError) : String :=
  if e.message = "" then e.name else e.name ++ ": " ++ e.message

/-- `ParsedResult<T>` of the TypeBox implementation: success with the
parsed data or failure with a plain `Error` diagnostic. -/
inductive TbParsedResult where
  | success (data : JValue)
  | failure (error : TbError)
  deriving DecidableEq

/-- Model of the path of the first compiler error reported by the
external `TypeCompiler` for a failing value. -/
def tbFirstErrorPath (_ : TBSchema) (_ : JValue) : String := "/"

/-- Model of the message of the first compiler error reported by the
external `TypeCompiler` for a failing value. -/
def tbFirstErrorMessage (_ : TBSchema) (_ : JValue) : String :=
  "Value does not match schema"

/-- Model of the diagnostic text built by the TypeBox `defaultParser`
from the first compiler error:
`Error at ${path}: ${message}, got ${value}`.  The path and message come
from the external `TypeCompiler`; the model renders them as a function of
the schema and the offending value. -/
def tbDiagnosticText (schema : TBSchema) (value : JValue) : String :=
  "Error at " ++ tbFirstErrorPath schema value ++ ": " ++
    tbFirstErrorMessage schema value ++ ", got " ++ value.jsString

/-- The TypeBox implementation's `defaultParser`: compile (the
process-wide `compiledSchemas` cache is a pure optimisation and is not
modelled) and `Check` the value; on success return the value cast through
`{ ...schema, additionalProperties: false }`, on failure return a plain
`Error` built from the first compiler diagnostic. -/
def defaultParser (schema : TBSchema) (value : JValue) : TbParsedResult :=
  if tcheck schema value then .success (tcast schema value)
  else .failure (.plainError "Error" (tbDiagnosticText schema value))

/-- A handler-registry entry of the TypeBox implementation:
`[handler, schema?, extractor]`. -/
abbrev TbEntry (To : Type) :=
  NamedFn JValue (Except TbError To) × Option TBSchema × (Response → Except TbError JValue)

/-- The `TypeboxFetcher` instance state: the stored request descriptor,
the injected parser and fetch capabilities, the status-code handler
registry, and the two fallback slots.  (The builder's type-level
narrowing `Handled<TResult, Code>` and `unsafeCoerce` have no runtime
content and are erased.) -/
structure TypeboxFetcher (To : Type) where
  input : String
  init : Option String
  parser : TBSchema → JValue → TbParsedResult
  fetch : String → Option String → Except TbError Response
  handlers : List (Nat × TbEntry To)
  restToHandler : Option (Unit → To)
  restErrorHandler : Option (Response → TbError)

/-- `TypeboxFetcher.handle(code, handler, schema?, extractor)`: store the
triple in the registry (overwriting any entry at the same code) and
return the (coerced) instance. -/
def TypeboxFetcher.handle {To : Type} (F : TypeboxFetcher To) (code : Nat)
    (handler : NamedFn JValue (Except TbError To)) (schema : Option TBSchema)
    (extractor : Response → Except TbError JValue) : TypeboxFetcher To :=
  { F with handlers := mapSet F.handlers code (handler, schema, extractor) }

/-- `TypeboxFetcher.discardRestAsError`: set the error-producing fallback. -/
def TypeboxFetcher.discardRestAsError {To : Type} (F : TypeboxFetcher To)
    (restErrorHandler : Response → TbError) : TypeboxFetcher To :=
  { F with restErrorHandler := some restErrorHandler }

/-- `TypeboxFetcher.discardRestAsTo`: set the value-producing fallback. -/
def TypeboxFetcher.discardRestAsTo {To : Type} (F : TypeboxFetcher To)
    (restToHandler : Unit → To) : TypeboxFetcher To :=
  { F with restToHandler := some restToHandler }

/-- `TypeboxFetcher.map(fn)`: build a new fetcher with the same input,
init, parser and fetch; copy every handler entry composing its handler
with `fn` (the composite is an anonymous arrow, name ""); compose the
value fallback with `fn` when present; copy the error fallback unchanged
when present. -/
def TypeboxFetcher.map {To B : Type} (F : TypeboxFetcher To) (fn : To → B) :
    TypeboxFetcher B :=
  { input := F.input
    init := F.init
    parser := F.parser
    fetch := F.fetch
    handlers := F.handlers.map (fun p =>
      (p.1,
       (⟨"", fun data =>
          match p.2.1.fn data with
          | .error e => .error e
          | .ok a => .ok (fn a)⟩,
        p.2.2.1, p.2.2.2)))
    restToHandler :=
      match F.restToHandler with
      | some rth => some (fun _ => fn (rth ()))
      | none => none
    restErrorHandler :=
      match F.restErrorHandler with
      | some reh => some reh
      | none => none }

/-- `TypeboxFetcher.run`: one transport call, status lookup, extraction,
optional validation, handler invocation, fallback handling.  Rejections
are `Except.error`; the tuple `[To, Error | undefined]` is
`To × Option TbError`.  The `return Promise.reject(...)` statements exit
the outer `try` before adoption, so the outer catch (which re-rejects the
caught error unchanged) applies only to the transport call. -/
def TypeboxFetcher.run {To : Type} (F : TypeboxFetcher To) :
    Except TbError (To × Option TbError) :=
  match F.fetch F.input F.init with
  | .error e => .error e
  | .ok response =>
    match mapGet F.handlers response.status with
    | some (handler, schema, extractor) =>
      match extractor response with
      | .error jsonError =>
          .error (.jsonDeserializationError
            ("Could not deserialize response JSON, details: " ++ jsonError.jsString))
      | .ok body =>
        match schema with
        | some s =>
          match F.parser s body with
          | .failure perr =>
            match handler.fn body with
            | .error herr =>
                .error (.plainError "Error"
                  ("Handler side error, details: " ++ herr.jsString))
            | .ok out => .ok (out, some perr)
          | .success data =>
            match handler.fn data with
            | .error herr =>
                .error (.plainError "Error"
                  ("Handler side error, details: " ++ herr.jsString))
            | .ok out => .ok (out, none)
        | none =>
          match handler.fn body with
          | .error herr =>
              .error (.plainError "Error"
                ("Handler side error, details: " ++ herr.jsString))
          | .ok out => .ok (out, none)
    | none =>
      match F.restErrorHandler with
      | some reh => .error (reh response)
      | none =>
        match F.restToHandler with
        | some rth => .ok (rth (), none)
        | none => .error (.handlerNotSetError response.status)

/-- Errors of the Zod implementation's errors module: `FetcherError` and
its subclasses, each with the fields its constructor stores, plus
`plainError` for plain (non-Fetcher) `Error` values.  `σ` is the schema
type and `β` the body type of the pipeline. -/
inductive ZodError (σ β : Type) where
  | plainError (name message : String)
  | fetcherError (message : String)
  | handlerNotSetError (code : Nat)
  | jsonDeserializationError (message : String) (response : Response)
      (responseText : String) (cause : ZodError σ β)
  | validationError (message : String) (value : β) (schema : σ)
      (validationErr : ZodError σ β)
  | networkError (message : String) (request : String)
      (requestInit : Option String) (cause : ZodError σ β)
  | parsingError (message : String) (rawData : β) (handlerName : String)
      (cause : ZodError σ β)
  deriving DecidableEq

/-- The `.message` property of a Zod-side error. -/
def ZodError.message {σ β : Type} : ZodError σ β → String
  | .plainError _ m => m
  | .fetcherError m => m
  | .handlerNotSetError c => "No handler registered for status code " ++ toString c
  | .jsonDeserializationError m _ _ _ => m
  | .validationError m _ _ _ => m
  | .networkError m _ _ _ => m
  | .parsingError m _ _ _ => m

/-- `error instanceof FetcherError`: every error class of the errors
module extends `FetcherError`; a plain `Error` does not. -/
def ZodError.isFetcherError {σ β : Type} : ZodError σ β → Bool
  | .plainError _ _ => false
  | _ => true

/-- `error instanceof NetworkError`. -/
def ZodError.isNetworkError {σ β : Type} : ZodError σ β → Bool
  | .networkError _ _ _ _ => true
  | _ => false

/-- `error instanceof ValidationError`. -/
def ZodError.isValidationError {σ β : Type} : ZodError σ β → Bool
  | .validationError _ _ _ _ => true
  | _ => false

/-- `ParsedResult<T>` of the Zod implementation: success with the parsed
data or failure with an `Error` diagnostic. -/
inductive ZodParsedResult (σ β : Type) where
  | success (data : β)
  | failure (error : ZodError σ β)

/-- `SafeResult<T>`: the tagged union returned by `safeRun`,
status "ok" with data or status "error" with a fetcher error. -/
inductive SafeResult (σ β To : Type) where
  | ok (data : To)
  | error (error : ZodError σ β)

/-- A handler-registry entry of the Zod implementation. -/
abbrev ZodEntry (σ β To : Type) :=
  NamedFn β (Except (ZodError σ β) To) × Option σ × (Response → Except (ZodError σ β) β)

/-- The `ZodFetcher` instance state (src/unnamed/part_004): request
descriptor, injected parser and fetch, handler registry and fallback
slots.  The parser is the injected validation capability, so the schema
type `σ` and body type `β` stay abstract. -/
structure ZodFetcher (σ β To : Type) where
  input : String
  init : Option String
  parser : σ → β → ZodParsedResult σ β
  fetch : String → Option String → Except (ZodError σ β) Response
  handlers : List (Nat × ZodEntry σ β To)
  restToHandler : Option (Unit → To)
  restErrorHandler : Option (Response → ZodError σ β)

/-- `ZodFetcher.handle(code, handler, schema?, extractor)`. -/
def ZodFetcher.handle {σ β To : Type} (F : ZodFetcher σ β To) (code : Nat)
    (handler : NamedFn β (Except (ZodError σ β) To)) (schema : Option σ)
    (extractor : Response → Except (ZodError σ β) β) : ZodFetcher σ β To :=
  { F with handlers := mapSet F.handlers code (handler, schema, extractor) }

/-- `ZodFetcher.discardRestAsError`. -/
def ZodFetcher.discardRestAsError {σ β To : Type} (F : ZodFetcher σ β To)
    (restErrorHandler : Response → ZodError σ β) : ZodFetcher σ β To :=
  { F with restErrorHandler := some restErrorHandler }

/-- `ZodFetcher.discardRestAsTo`. -/
def ZodFetcher.discardRestAsTo {σ β To : Type} (F : ZodFetcher σ β To)
    (restToHandler : Unit → To) : ZodFetcher σ β To :=
  { F with restToHandler := some restToHandler }

/-- `ZodFetcher.map(fn)`: structural copy with every handler composed
with `fn`, the value fallback composed with `fn` when present, and the
error fallback copied unchanged when present. -/
def ZodFetcher.map {σ β To B : Type} (F : ZodFetcher σ β To) (fn : To → B) :
    ZodFetcher σ β B :=
  { input := F.input
    init := F.init
    parser := F.parser
    fetch := F.fetch
    handlers := F.handlers.map (fun p =>
      (p.1,
       (⟨"", fun data =>
          match p.2.1.fn data with
          | .error e => .error e
          | .ok a => .ok (fn a)⟩,
        p.2.2.1, p.2.2.2)))
    restToHandler :=
      match F.restToHandler with
      | some rth => some (fun _ => fn (rth ()))
      | none => none
    restErrorHandler :=
      match F.restErrorHandler with
      | some reh => some reh
      | none => none }

/-- `handler.name || 'anonymous'`. -/
def jsNameOrAnonymous (n : String) : String :=
  if n = "" then "anonymous" else n

/-- `ZodFetcher.run` (src/unnamed/part_004 lines 228-315).  The matched
entry's rejections carry the rich error classes: extractor failure
becomes a `JsonDeserializationError` carrying the response and the text
of its pre-taken clone; a validation failure does not abort but fills the
diagnostic slot with a `ValidationError`; a throwing handler becomes a
`ParsingError` carrying the raw extracted body, the handler's name (or
"anonymous") and the causing error.  The outer catch re-rejects a caught
`FetcherError` unchanged and wraps anything else in a `NetworkError`
carrying the request descriptor; as in the source, only the awaited
transport call can throw into it. -/
def ZodFetcher.run {σ β To : Type} (F : ZodFetcher σ β To) :
    Except (ZodError σ β) (To × Option (ZodError σ β)) :=
  match F.fetch F.input F.init with
  | .error e =>
      if e.isFetcherError then .error e
      else .error (.networkError ("Network request failed: " ++ e.message)
        F.input F.init e)
  | .ok response =>
    match mapGet F.handlers response.status with
    | some (handler, schema, extractor) =>
      match extractor response with
      | .error jsonError =>
          .error (.jsonDeserializationError
            ("Could not deserialize response JSON: " ++ jsonError.message)
            response response.bodyText jsonError)
      | .ok body =>
        match schema with
        | some s =>
          match F.parser s body with
          | .failure perr =>
            match handler.fn body with
            | .error herr =>
                .error (.parsingError
                  ("Handler execution failed: " ++ herr.message)
                  body (jsNameOrAnonymous handler.name) herr)
            | .ok out =>
                .ok (out, some (.validationError
                  ("Validation failed: " ++ perr.message) body s perr))
          | .success data =>
            match handler.fn data with
            | .error herr =>
                .error (.parsingError
                  ("Handler execution failed: " ++ herr.message)
                  body (jsNameOrAnonymous handler.name) herr)
            | .ok out => .ok (out, none)
        | none =>
          match handler.fn body with
          | .error herr =>
              .error (.parsingError
                ("Handler execution failed: " ++ herr.message)
                body (jsNameOrAnonymous handler.name) herr)
          | .ok out => .ok (out, none)
    | none =>
      match F.restErrorHandler with
      | some reh => .error (reh response)
      | none =>
        match F.restToHandler with
        | some rth => .ok (rth (), none)
        | none => .error (.handlerNotSetError response.status)

/-- `ZodFetcher.safeRun`: await `run`; a rejection becomes the error
variant (every thrown value in the model is an `Error` instance, so the
`new FetcherError(String(error))` branch for non-Error throwables does
not arise); a resolved tuple whose diagnostic slot is occupied becomes
the error variant holding the diagnostic; otherwise the ok variant. -/
def ZodFetcher.safeRun {σ β To : Type} (F : ZodFetcher σ β To) :
    SafeResult σ β To :=
  match F.run with
  | .error e => .error e
  | .ok (_, some validationErr) => .error validationErr
  | .ok (data, none) => .ok data

/-! Concrete instances used by the witness and counterexample theorems. -/

/-- A 200 response whose body text is the digit 7. -/
def respN7 : Response := ⟨200, some "application/json", "7"⟩

/-- A Zod fetcher whose injected parser rejects every body: handler for
200 adds one to the numeric body, schema present, parser always fails. -/
def zC1 : ZodFetcher Unit Nat Nat :=
  { input := "/api/users/1"
    init := none
    parser := fun _ _ => .failure (.plainError "Error" "Expected string")
    fetch := fun _ _ => .ok respN7
    handlers := [(200, (⟨"onOk", fun b => .ok (b + 1)⟩, some (), fun _ => .ok 7))]
    restToHandler := none
    restErrorHandler := none }

/-- A TypeBox fetcher whose injected parser rejects every body. -/
def tC1 : TypeboxFetcher String :=
  { input := "/api/users/1"
    init := none
    parser := fun _ _ => .failure (.plainError "Error" "bad shape")
    fetch := fun _ _ => .ok ⟨200, some "application/json", "foo"⟩
    handlers := [(200, (⟨"onOk", fun v => .ok v.jsString⟩, some .tString,
      fun _ => .ok (.str "foo")))]
    restToHandler := none
    restErrorHandler := none }

/-- The schema of the spec's running scenario:
`Type.Object({ name: Type.String(), age: Type.Number() })`. -/
def userSchema : TBSchema :=
  .tObject (.pcons "name" .tString (.pcons "age" .tNumber .pnil))

/-- A body with one property more than `userSchema` declares. -/
def annBody : JValue :=
  .obj (.fcons "name" (.str "Ann")
    (.fcons "age" (.num 30) (.fcons "role" (.str "admin") .fnil)))

/-- A TypeBox fetcher with a handler for 200 and no schema. -/
def tC2NoSchema : TypeboxFetcher String :=
  { input := "/api"
    init := none
    parser := defaultParser
    fetch := fun _ _ => .ok ⟨200, none, "raw"⟩
    handlers := [(200, (⟨"toText", fun v => .ok v.jsString⟩, none,
      fun _ => .ok (.str "raw")))]
    restToHandler := none
    restErrorHandler := none }

/-- A TypeBox fetcher using `defaultParser` with `userSchema` on a body
that carries an undeclared extra property. -/
def tC2Schema : TypeboxFetcher JValue :=
  { input := "/api"
    init := none
    parser := defaultParser
    fetch := fun _ _ => .ok ⟨200, some "application/json", "ann"⟩
    handlers := [(200, (⟨"idHandler", fun v => .ok v⟩, some userSchema,
      fun _ => .ok annBody))]
    restToHandler := none
    restErrorHandler := none }

/-- A Zod fetcher with a handler for 200 and no schema. -/
def zC2NoSchema : ZodFetcher Unit String Nat :=
  { input := "/api"
    init := none
    parser := fun _ _ => .failure (.plainError "Error" "unused")
    fetch := fun _ _ => .ok ⟨200, none, "hello"⟩
    handlers := [(200, (⟨"len", fun s => .ok s.length⟩, none,
      fun _ => .ok "hello"))]
    restToHandler := none
    restErrorHandler := none }

/-- A Zod fetcher whose injected parser accepts and transforms the body,
so the handler observably receives the validated value. -/
def zC2Schema : ZodFetcher Unit String Nat :=
  { input := "/api"
    init := none
    parser := fun _ s => .success (s ++ "!")
    fetch := fun _ _ => .ok ⟨200, none, "hello"⟩
    handlers := [(200, (⟨"len", fun s => .ok s.length⟩, some (),
      fun _ => .ok "hello"))]
    restToHandler := none
    restErrorHandler := none }

/-- A 404 response. -/
def resp404 : Response := ⟨404, none, "missing"⟩

/-- A TypeBox fetcher handling only 200, receiving a 404, with BOTH
fallback slots set. -/
def tC4 : TypeboxFetcher String :=
  { input := "/api"
    init := none
    parser := defaultParser
    fetch := fun _ _ => .ok resp404
    handlers := [(200, (⟨"onOk", fun v => .ok v.jsString⟩, none,
      fun _ => .ok (.str "x")))]
    restToHandler := some (fun _ => "fallback value")
    restErrorHandler := some (fun r =>
      .plainError "Error" ("Unexpected status: " ++ toString r.status)) }

/-- A Zod fetcher handling only 200, receiving a 404, with BOTH fallback
slots set. -/
def zC4 : ZodFetcher Unit Nat String :=
  { input := "/api"
    init := none
    parser := fun _ _ => .failure (.plainError "Error" "unused")
    fetch := fun _ _ => .ok resp404
    handlers := [(200, (⟨"onOk", fun n => .ok (toString n)⟩, none,
      fun _ => .ok 0))]
    restToHandler := some (fun _ => "fallback value")
    restErrorHandler := some (fun r =>
      .plainError "Error" ("Unexpected status: " ++ toString r.status)) }

/-- A Zod fetcher whose transport rejects with a `FetcherError`
(a `HandlerNotSetError`), exercising the `instanceof FetcherError`
branch of `run`'s outer catch. -/
def zC5fetcherErr : ZodFetcher Unit Unit Unit :=
  { input := "/api"
    init := none
    parser := fun _ _ => .failure (.plainError "Error" "unused")
    fetch := fun _ _ => .error (.handlerNotSetError 418)
    handlers := []
    restToHandler := none
    restErrorHandler := none }

/-- A Zod fetcher whose transport rejects with a plain `TypeError`. -/
def zC5net : ZodFetcher Unit Unit Unit :=
  { input := "/api"
    init := none
    parser := fun _ _ => .failure (.plainError "Error" "unused")
    fetch := fun _ _ => .error (.plainError "TypeError" "Failed to fetch")
    handlers := []
    restToHandler := none
    restErrorHandler := none }

/-- A TypeBox fetcher whose transport rejects with a plain `TypeError`. -/
def tC5 : TypeboxFetcher String :=
  { input := "/api"
    init := none
    parser := defaultParser
    fetch := fun _ _ => .error (.plainError "TypeError" "Failed to fetch")
    handlers := []
    restToHandler := none
    restErrorHandler := none }

/-- A Zod fetcher whose 200 handler (named "myHandler") throws. -/
def zC6 : ZodFetcher Unit Nat Nat :=
  { input := "/api"
    init := none
    parser := fun _ _ => .failure (.plainError "Error" "unused")
    fetch := fun _ _ => .ok ⟨200, none, "3"⟩
    handlers := [(200, (⟨"myHandler", fun _ => .error (.plainError "Error" "boom")⟩,
      none, fun _ => .ok 3))]
    restToHandler := none
    restErrorHandler := none }

/-- A TypeBox fetcher whose 200 handler (named "myHandler") throws after
extracting the body 1. -/
def tC6a : TypeboxFetcher String :=
  { input := "/api"
    init := none
    parser := defaultParser
    fetch := fun _ _ => .ok ⟨200, none, "1"⟩
    handlers := [(200, (⟨"myHandler", fun _ => .error (.plainError "Error" "boom")⟩,
      none, fun _ => .ok (.num 1)))]
    restToHandler := none
    restErrorHandler := none }

/-- Like `tC6a` but the extracted raw body is 2 and the throwing handler
is named "otherHandler": the raw data and the handler identifier both
differ from `tC6a`. -/
def tC6b : TypeboxFetcher String :=
  { input := "/api"
    init := none
    parser := defaultParser
    fetch := fun _ _ => .ok ⟨200, none, "2"⟩
    handlers := [(200, (⟨"otherHandler", fun _ => .error (.plainError "Error" "boom")⟩,
      none, fun _ => .ok (.num 2)))]
    restToHandler := none
    restErrorHandler := none }

/-- A Zod fetcher whose injected parser rejects every body, used to
observe `safeRun` on a run success whose diagnostic slot is occupied. -/
def zC3 : ZodFetcher Unit Nat Nat :=
  { input := "/api"
    init := none
    parser := fun _ _ => .failure (.plainError "Error" "nope")
    fetch := fun _ _ => .ok respN7
    handlers := [(200, (⟨"onOk", fun b => .ok (b + 1)⟩, some (), fun _ => .ok 7))]
    restToHandler := none
    restErrorHandler := none }

/-- A response carrying malformed JSON body text. -/
def respBadJson : Response := ⟨200, some "application/json", "not json"⟩

/-- A Zod fetcher whose matched extractor throws (malformed JSON). -/
def zC7 : ZodFetcher Unit Nat Nat :=
  { input := "/api"
    init := none
    parser := fun _ _ => .failure (.plainError "Error" "unused")
    fetch := fun _ _ => .ok respBadJson
    handlers := [(200, (⟨"onOk", fun n => .ok n⟩, none,
      fun _ => .error (.plainError "SyntaxError" "Unexpected token")))]
    restToHandler := none
    restErrorHandler := none }

/-- A response whose raw body text is "aaa". -/
def respAAA : Response := ⟨200, some "application/json", "aaa"⟩

/-- A response whose raw body text is "bbb". -/
def respBBB : Response := ⟨200, some "application/json", "bbb"⟩

/-- A TypeBox fetcher receiving the "aaa" response, whose extractor
throws. -/
def tC7a : TypeboxFetcher String :=
  { input := "/api"
    init := none
    parser := defaultParser
    fetch := fun _ _ => .ok respAAA
    handlers := [(200, (⟨"onOk", fun v => .ok v.jsString⟩, none,
      fun _ => .error (.plainError "SyntaxError" "Unexpected token")))]
    restToHandler := none
    restErrorHandler := none }

/-- A TypeBox fetcher receiving the "bbb" response, whose extractor
throws with the same causing error as `tC7a`. -/
def tC7b : TypeboxFetcher String :=
  { input := "/api"
    init := none
    parser := defaultParser
    fetch := fun _ _ => .ok respBBB
    handlers := [(200, (⟨"onOk", fun v => .ok v.jsString⟩, none,
      fun _ => .error (.plainError "SyntaxError" "Unexpected token")))]
    restToHandler := none
    restErrorHandler := none }

/-! Helper lemmas about the JS `Map` model and the cast model. -/

theorem mapGet_mapSet_self {α : Type} (m : List (Nat × α)) (k : Nat) (v : α) :
    mapGet (mapSet m k v) k = some v := by
  induction m with
  | nil => simp [mapSet, mapGet]
  | cons p rest ih =>
      obtain ⟨k0, w⟩ := p
      by_cases h : k0 = k
      · simp [mapSet, h, mapGet]
      · simp [mapSet, h, mapGet, ih]

theorem mapSet_mapSet_self {α : Type} (m : List (Nat × α)) (k : Nat) (v w : α) :
    mapSet (mapSet m k v) k w = mapSet m k w := by
  induction m with
  | nil => simp [mapSet]
  | cons p rest ih =>
      obtain ⟨k0, u⟩ := p
      by_cases h : k0 = k
      · simp [mapSet, h]
      · simp [mapSet, h, ih]

theorem mapGet_map {α γ : Type} (T : α → γ) (m : List (Nat × α)) (k : Nat) :
    mapGet (m.map (fun p => (p.1, T p.2))) k = Option.map T (mapGet m k) := by
  induction m with
  | nil => simp [mapGet]
  | cons p rest ih =>
      obtain ⟨k0, v⟩ := p
      by_cases h : k0 = k <;> simp [mapGet, h, ih]

theorem tcastProps_keys : ∀ (props : TBProps) (fields : JFields),
    (tcastProps props fields).keys = props.keys
  | .pnil, _ => rfl
  | .pcons k sch rest, fields => by
      simp [tcastProps, JFields.keys, TBProps.keys, tcastProps_keys rest fields]

/-- C3: `safeRun` never rejects and resolves to the tagged union: it
yields the ok variant exactly when `run` resolves with an absent
diagnostic; it yields the error variant exactly when `run` rejects with
that error or resolves with that error in the diagnostic slot; and a
diagnostic that occupies `run`'s slot is always a Validation failure
(a `ValidationError`). -/
theorem c3_safeRun_total_characterisation {σ β To : Type}
    (F : ZodFetcher σ β To) (x : To) (e : ZodError σ β) :
    (F.safeRun = .ok x ↔ F.run = .ok (x, none))
    ∧ (F.safeRun = .error e ↔ (F.run = .error e ∨ ∃ y, F.run = .ok (y, some e)))
    ∧ (∀ y d, F.run = .ok (y, some d) → d.isValidationError = true) := by
  refine ⟨?_, ?_, ?_⟩
  · unfold ZodFetcher.safeRun
    rcases hr : F.run with e0 | ⟨y, d⟩
    · simp
    · cases d <;> simp
  · unfold ZodFetcher.safeRun
    rcases hr : F.run with e0 | ⟨y, d⟩
    · simp
    · cases d <;> simp
  · intro y d h
    unfold ZodFetcher.run at h
    split at h
    · split at h <;> simp_all
    · split at h
      · split at h
        · simp_all
        · split at h
          · split at h
            · split at h
              · simp_all
              · rcases h with ⟨⟩
                rfl
            · split at h <;> simp_all
          · split at h <;> simp_all
      · split at h
        · simp_all
        · split at h <;> simp_all

/-- C8: `map(f)` on either implementation is a structural copy: the new
fetcher shares the request input, init, parser and fetch of the
original; its registry entry at every code is the original entry with
the handler post-composed with `f` (as an anonymous function); the
value fallback, when present, is post-composed with `f`; and the error
fallback is copied unchanged.  The original fetcher is a value the
operation does not touch, so it remains usable with its original output
type. -/
theorem c8_map_structural_copy {σ β To B To2 B2 : Type}
    (F : ZodFetcher σ β To) (f : To → B)
    (G : TypeboxFetcher To2) (g : To2 → B2) :
    ((F.map f).input = F.input ∧ (F.map f).init = F.init
      ∧ (F.map f).parser = F.parser ∧ (F.map f).fetch = F.fetch
      ∧ (F.map f).restErrorHandler = F.restErrorHandler
      ∧ (F.map f).restToHandler
          = Option.map (fun rth => (fun _ : Unit => f (rth ()))) F.restToHandler
      ∧ ∀ c, mapGet (F.map f).handlers c
          = Option.map (fun en =>
              ((⟨"", fun data =>
                 match en.1.fn data with
                 | .error e => .error e
                 | .ok a => .ok (f a)⟩ : NamedFn β (Except (ZodError σ β) B)),
               en.2.1, en.2.2))
            (mapGet F.handlers c))
    ∧ ((G.map g).input = G.input ∧ (G.map g).init = G.init
      ∧ (G.map g).parser = G.parser ∧ (G.map g).fetch = G.fetch
      ∧ (G.map g).restErrorHandler = G.restErrorHandler
      ∧ (G.map g).restToHandler
          = Option.map (fun rth => (fun _ : Unit => g (rth ()))) G.restToHandler
      ∧ ∀ c, mapGet (G.map g).handlers c
          = Option.map (fun en =>
              ((⟨"", fun data =>
                 match en.1.fn data with
                 | .error e => .error e
                 | .ok a => .ok (g a)⟩ : NamedFn JValue (Except TbError B2)),
               en.2.1, en.2.2))
            (mapGet G.handlers c)) := by
  constructor
  · refine ⟨rfl, rfl, rfl, rfl, ?_, ?_, ?_⟩
    · cases hF : F.restErrorHandler <;> simp [ZodFetcher.map, hF]
    · cases hF : F.restToHandler <;> simp [ZodFetcher.map, hF]
    · intro c
      exact mapGet_map (fun en =>
        ((⟨"", fun data =>
           match en.1.fn data with
           | .error e => .error e
           | .ok a => .ok (f a)⟩ : NamedFn β (Except (ZodError σ β) B)),
         en.2.1, en.2.2)) F.handlers c
  · refine ⟨rfl, rfl, rfl, rfl, ?_, ?_, ?_⟩
    · cases hG : G.restErrorHandler <;> simp [TypeboxFetcher.map, hG]
    · cases hG : G.restToHandler <;> simp [TypeboxFetcher.map, hG]
    · intro c
      exact mapGet_map (fun en =>
        ((⟨"", fun data =>
           match en.1.fn data with
           | .error e => .error e
           | .ok a => .ok (g a)⟩ : NamedFn JValue (Except TbError B2)),
         en.2.1, en.2.2)) G.handlers c

/-- C9: mapping twice is mapping the composition: `d.map(f).map(g)` is
the very same fetcher as `d.map(x => g(f(x)))` (structurally equal), so
in particular their `run` outcomes agree for every transport outcome; in
both implementations. -/
theorem c9_map_map_eq_map_comp {σ β To B C To2 B2 C2 : Type}
    (F : ZodFetcher σ β To) (f : To → B) (g : B → C)
    (G : TypeboxFetcher To2) (f2 : To2 → B2) (g2 : B2 → C2) :
    ((F.map f).map g = F.map (fun x => g (f x))
      ∧ ((F.map f).map g).run = (F.map (fun x => g (f x))).run)
    ∧ ((G.map f2).map g2 = G.map (fun x => g2 (f2 x))
      ∧ ((G.map f2).map g2).run = (G.map (fun x => g2 (f2 x))).run) := by
  have hz : (F.map f).map g = F.map (fun x => g (f x)) := by
    cases F with
    | mk input init parser fetch handlers restTo restErr =>
      simp only [ZodFetcher.map, List.map_map, ZodFetcher.mk.injEq, true_and]
      refine ⟨?_, ?_, ?_⟩
      · apply List.map_congr_left
        rintro ⟨c, h, s, e⟩ _
        simp only [Function.comp_apply, Prod.mk.injEq, NamedFn.mk.injEq,
          eq_self_iff_true, true_and, and_true]
        funext data
        cases hd : h.fn data <;> simp [hd]
      · cases restTo <;> rfl
      · cases restErr <;> rfl
  have ht : (G.map f2).map g2 = G.map (fun x => g2 (f2 x)) := by
    cases G with
    | mk input init parser fetch handlers restTo restErr =>
      simp only [TypeboxFetcher.map, List.map_map, TypeboxFetcher.mk.injEq, true_and]
      refine ⟨?_, ?_, ?_⟩
      · apply List.map_congr_left
        rintro ⟨c, h, s, e⟩ _
        simp only [Function.comp_apply, Prod.mk.injEq, NamedFn.mk.injEq,
          eq_self_iff_true, true_and, and_true]
        funext data
        cases hd : h.fn data <;> simp [hd]
      · cases restTo <;> rfl
      · cases restErr <;> rfl
  exact ⟨⟨hz, congrArg ZodFetcher.run hz⟩, ⟨ht, congrArg TypeboxFetcher.run ht⟩⟩

/-- C10: registering a second handler for an already-registered status
code silently overwrites the earlier entry (`Map.set` semantics, no
duplicate-registration error): the twice-registered fetcher is
structurally the fetcher registered only with the second triple, and the
registry lookup that `run` dispatches on yields exactly the second
triple; in both implementations. -/
theorem c10_handle_overwrites_last_write_wins {σ β To To2 : Type}
    (F : ZodFetcher σ β To) (code : Nat)
    (a1 : NamedFn β (Except (ZodError σ β) To)) (s1 : Option σ)
    (x1 : Response → Except (ZodError σ β) β)
    (a2 : NamedFn β (Except (ZodError σ β) To)) (s2 : Option σ)
    (x2 : Response → Except (ZodError σ β) β)
    (G : TypeboxFetcher To2) (k : Nat)
    (b1 : NamedFn JValue (Except TbError To2)) (t1 : Option TBSchema)
    (y1 : Response → Except TbError JValue)
    (b2 : NamedFn JValue (Except TbError To2)) (t2 : Option TBSchema)
    (y2 : Response → Except TbError JValue) :
    (((F.handle code a1 s1 x1).handle code a2 s2 x2 = F.handle code a2 s2 x2)
      ∧ mapGet ((F.handle code a1 s1 x1).handle code a2 s2 x2).handlers code
          = some (a2, s2, x2))
    ∧ (((G.handle k b1 t1 y1).handle k b2 t2 y2 = G.handle k b2 t2 y2)
      ∧ mapGet ((G.handle k b1 t1 y1).handle k b2 t2 y2).handlers k
          = some (b2, t2, y2)) := by
  refine ⟨⟨?_, ?_⟩, ⟨?_, ?_⟩⟩
  · simp only [ZodFetcher.handle, mapSet_mapSet_self]
  · simp only [ZodFetcher.handle, mapSet_mapSet_self, mapGet_mapSet_self]
  · simp only [TypeboxFetcher.handle, mapSet_mapSet_self]
  · simp only [TypeboxFetcher.handle, mapSet_mapSet_self, mapGet_mapSet_self]

/-- C1: when the transport yields a response whose status code has a
registered entry with a schema and the parser rejects the extracted
body, `run` does not reject: the handler is invoked on the raw
unvalidated body and `run` resolves to the tuple of handler result and a
present validation diagnostic (in the Zod implementation a
`ValidationError` wrapping the parser failure, in the TypeBox
implementation the parser's own error value), while `safeRun` on the
same (Zod) fetcher resolves to the error variant wrapping that
diagnostic. -/
theorem c1_validation_failure_not_terminal {σ β To To2 : Type}
    (F : ZodFetcher σ β To) (resp : Response)
    (H : NamedFn β (Except (ZodError σ β) To)) (S : σ)
    (E : Response → Except (ZodError σ β) β) (body : β)
    (perr : ZodError σ β) (out : To)
    (G : TypeboxFetcher To2) (resp2 : Response)
    (H2 : NamedFn JValue (Except TbError To2)) (S2 : TBSchema)
    (E2 : Response → Except TbError JValue) (body2 : JValue)
    (perr2 : TbError) (out2 : To2)
    (h1 : F.fetch F.input F.init = .ok resp)
    (h2 : mapGet F.handlers resp.status = some (H, some S, E))
    (h3 : E resp = .ok body)
    (h4 : F.parser S body = .failure perr)
    (h5 : H.fn body = .ok out)
    (g1 : G.fetch G.input G.init = .ok resp2)
    (g2 : mapGet G.handlers resp2.status = some (H2, some S2, E2))
    (g3 : E2 resp2 = .ok body2)
    (g4 : G.parser S2 body2 = .failure perr2)
    (g5 : H2.fn body2 = .ok out2) :
    F.run = .ok (out, some (.validationError
        ("Validation failed: " ++ perr.message) body S perr))
    ∧ F.safeRun = .error (.validationError
        ("Validation failed: " ++ perr.message) body S perr)
    ∧ G.run = .ok (out2, some perr2) := by
  have hrun : F.run = .ok (out, some (.validationError
      ("Validation failed: " ++ perr.message) body S perr)) := by
    simp only [ZodFetcher.run, h1, h2, h3, h4, h5]
  refine ⟨hrun, ?_, ?_⟩
  · simp only [ZodFetcher.safeRun, hrun]
  · simp only [TypeboxFetcher.run, g1, g2, g3, g4, g5]

/-- C1 witness at concrete fetchers. -/
theorem c1_witness :
    zC1.run = .ok (8, some (.validationError "Validation failed: Expected string"
      7 () (.plainError "Error" "Expected string")))
    ∧ zC1.safeRun = .error (.validationError "Validation failed: Expected string"
      7 () (.plainError "Error" "Expected string"))
    ∧ tC1.run = .ok ("foo", some (.plainError "Error" "bad shape")) :=
  c1_validation_failure_not_terminal zC1 _ _ _ _ _ _ _ tC1 _ _ _ _ _ _ _
    rfl rfl rfl rfl rfl rfl rfl rfl rfl rfl

/-- C2: on a matched status, with no schema the handler receives the
extracted body and `run` resolves with an absent diagnostic; with a
schema the parser accepts, the handler receives the validated value and
`run` resolves with an absent diagnostic; with the TypeBox
`defaultParser` the validated value is the body cast through the schema
with `additionalProperties: false`, and the cast of an object keeps
exactly the schema's declared keys (undeclared fields are stripped). -/
theorem c2_success_paths {σ β To To2 To3 : Type}
    (G1 : TypeboxFetcher To2) (r1 : Response)
    (H1 : NamedFn JValue (Except TbError To2))
    (E1 : Response → Except TbError JValue) (b1 : JValue) (o1 : To2)
    (G2 : TypeboxFetcher To3) (r2 : Response)
    (H2 : NamedFn JValue (Except TbError To3)) (S2 : TBSchema)
    (E2 : Response → Except TbError JValue) (b2 : JValue) (o2 : To3)
    (F1 : ZodFetcher σ β To) (r3 : Response)
    (H3 : NamedFn β (Except (ZodError σ β) To))
    (E3 : Response → Except (ZodError σ β) β) (b3 : β) (o3 : To)
    (F2 : ZodFetcher σ β To) (r4 : Response)
    (H4 : NamedFn β (Except (ZodError σ β) To)) (S4 : σ)
    (E4 : Response → Except (ZodError σ β) β) (b4 v4 : β) (o4 : To)
    (h1 : G1.fetch G1.input G1.init = .ok r1)
    (h2 : mapGet G1.handlers r1.status = some (H1, none, E1))
    (h3 : E1 r1 = .ok b1)
    (h4 : H1.fn b1 = .ok o1)
    (k1 : G2.fetch G2.input G2.init = .ok r2)
    (k2 : mapGet G2.handlers r2.status = some (H2, some S2, E2))
    (k3 : E2 r2 = .ok b2)
    (k4 : G2.parser = defaultParser)
    (k5 : tcheck S2 b2 = true)
    (k6 : H2.fn (tcast S2 b2) = .ok o2)
    (m1 : F1.fetch F1.input F1.init = .ok r3)
    (m2 : mapGet F1.handlers r3.status = some (H3, none, E3))
    (m3 : E3 r3 = .ok b3)
    (m4 : H3.fn b3 = .ok o3)
    (n1 : F2.fetch F2.input F2.init = .ok r4)
    (n2 : mapGet F2.handlers r4.status = some (H4, some S4, E4))
    (n3 : E4 r4 = .ok b4)
    (n4 : F2.parser S4 b4 = .success v4)
    (n5 : H4.fn v4 = .ok o4) :
    G1.run = .ok (o1, none)
    ∧ G2.run = .ok (o2, none)
    ∧ F1.run = .ok (o3, none)
    ∧ F2.run = .ok (o4, none)
    ∧ (∀ props fields, (tcastProps props fields).keys = props.keys) := by
  refine ⟨?_, ?_, ?_, ?_, fun props fields => tcastProps_keys props fields⟩
  · simp only [TypeboxFetcher.run, h1, h2, h3, h4]
  · simp only [TypeboxFetcher.run, k1, k2, k3, k4, defaultParser, k5, if_true, k6]
  · simp only [ZodFetcher.run, m1, m2, m3, m4]
  · simp only [ZodFetcher.run, n1, n2, n3, n4, n5]

/-- C2 witness at concrete fetchers; the body `annBody` carries the
undeclared property "role", absent from the value the handler received. -/
theorem c2_witness :
    tC2NoSchema.run = .ok ("raw", none)
    ∧ tC2Schema.run = .ok (.obj (.fcons "name" (.str "Ann")
        (.fcons "age" (.num 30) .fnil)), none)
    ∧ zC2NoSchema.run = .ok (5, none)
    ∧ zC2Schema.run = .ok (6, none)
    ∧ (∀ props fields, (tcastProps props fields).keys = props.keys) :=
  c2_success_paths tC2NoSchema _ _ _ _ _ tC2Schema _ _ _ _ _ _
    zC2NoSchema _ _ _ _ _ zC2Schema _ _ _ _ _ _ _
    rfl rfl rfl rfl rfl rfl rfl rfl rfl rfl rfl rfl rfl rfl rfl rfl rfl rfl rfl

/-- C3 witness: a run success whose diagnostic slot is occupied surfaces
through `safeRun` as the error variant holding that diagnostic. -/
theorem c3_witness :
    zC3.safeRun = .error (.validationError "Validation failed: nope" 7 ()
      (.plainError "Error" "nope")) :=
  (c3_safeRun_total_characterisation zC3 8 (.validationError
    "Validation failed: nope" 7 () (.plainError "Error" "nope"))).2.1.mpr
    (Or.inr ⟨8, rfl⟩)

/-- C4: on an unmatched status code, the error fallback, when set, wins
(even when the value fallback is also set) and `run` rejects with
exactly the error it builds from the response; otherwise the value
fallback, when set, resolves `run` to its value with an absent
diagnostic; otherwise `run` rejects with a `HandlerNotSetError` naming
the unmatched status code; in both implementations. -/
theorem c4_fallback_precedence {σ β To To2 : Type}
    (F : ZodFetcher σ β To) (resp : Response)
    (G : TypeboxFetcher To2) (resp2 : Response)
    (h1 : F.fetch F.input F.init = .ok resp)
    (h2 : mapGet F.handlers resp.status = none)
    (g1 : G.fetch G.input G.init = .ok resp2)
    (g2 : mapGet G.handlers resp2.status = none) :
    F.run = (match F.restErrorHandler with
      | some reh => .error (reh resp)
      | none => match F.restToHandler with
        | some rth => .ok (rth (), none)
        | none => .error (.handlerNotSetError resp.status))
    ∧ G.run = (match G.restErrorHandler with
      | some reh => .error (reh resp2)
      | none => match G.restToHandler with
        | some rth => .ok (rth (), none)
        | none => .error (.handlerNotSetError resp2.status)) := by
  constructor
  · simp only [ZodFetcher.run, h1, h2]
  · simp only [TypeboxFetcher.run, g1, g2]

/-- C4 witness: fetchers with BOTH fallback slots set dispatch an
unmatched 404 to the error fallback. -/
theorem c4_witness :
    zC4.run = .error (.plainError "Error" "Unexpected status: 404")
    ∧ tC4.run = .error (.plainError "Error" "Unexpected status: 404") :=
  c4_fallback_precedence zC4 resp404 tC4 resp404 rfl rfl rfl rfl

/-- C5 counterexample: the claim says every transport rejection is
re-wrapped as a Network failure, but the Zod `run`'s outer catch
re-rejects a caught `FetcherError` unchanged: a transport that rejects
with `HandlerNotSetError 418` makes `run` reject with exactly that
error, which is not a `NetworkError`. -/
theorem c5_counterexample :
    zC5fetcherErr.run = .error (.handlerNotSetError 418)
    ∧ (ZodError.handlerNotSetError 418 : ZodError Unit Unit).isNetworkError
        = false :=
  ⟨rfl, rfl⟩

/-- C5 (amended): when the transport rejects, the Zod implementation's
`run` rejects with a `NetworkError` that wraps the causing error and
carries the request descriptor, except when the causing error is itself
a `FetcherError`, which is re-rejected unchanged; `safeRun` resolves to
the error variant holding that rejection.  The TypeBox implementation
re-rejects the raw transport error without wrapping.  In both cases this
is terminal: no retry occurs (`run` performs a single transport call). -/
theorem c5_amended_network_wrapping {σ β To To2 : Type}
    (F : ZodFetcher σ β To) (e : ZodError σ β)
    (G : TypeboxFetcher To2) (e2 : TbError)
    (h1 : F.fetch F.input F.init = .error e)
    (g1 : G.fetch G.input G.init = .error e2) :
    F.run = .error (if e.isFetcherError then e
      else .networkError ("Network request failed: " ++ e.message) F.input F.init e)
    ∧ F.safeRun = .error (if e.isFetcherError then e
      else .networkError ("Network request failed: " ++ e.message) F.input F.init e)
    ∧ G.run = .error e2 := by
  have hrun : F.run = .error (if e.isFetcherError then e
      else .networkError ("Network request failed: " ++ e.message) F.input F.init e) := by
    simp only [ZodFetcher.run, h1]
    by_cases he : e.isFetcherError <;> simp [he]
  refine ⟨hrun, ?_, ?_⟩
  · simp only [ZodFetcher.safeRun, hrun]
  · simp only [TypeboxFetcher.run, g1]

/-- C5 witness: a plain `TypeError` transport rejection is wrapped by
the Zod implementation and passed through raw by the TypeBox one. -/
theorem c5_amended_witness :
    zC5net.run = .error (.networkError "Network request failed: Failed to fetch"
      "/api" none (.plainError "TypeError" "Failed to fetch"))
    ∧ zC5net.safeRun = .error (.networkError "Network request failed: Failed to fetch"
      "/api" none (.plainError "TypeError" "Failed to fetch"))
    ∧ tC5.run = .error (.plainError "TypeError" "Failed to fetch") :=
  c5_amended_network_wrapping zC5net _ tC5 _ rfl rfl

/-- C6 counterexample: the claim says the rejection produced by a
throwing handler carries the raw data passed to the handler, a handler
identifier and the causing error, but the TypeBox implementation rejects
with a plain message-only `Error`: two fetchers whose extracted raw
bodies differ (1 vs 2) and whose handler names differ ("myHandler" vs
"otherHandler") produce the very same rejection value, which therefore
carries neither the raw data nor a handler identifier. -/
theorem c6_counterexample :
    tC6a.run = .error (.plainError "Error"
      "Handler side error, details: Error: boom")
    ∧ tC6b.run = .error (.plainError "Error"
      "Handler side error, details: Error: boom")
    ∧ tC6a.run = tC6b.run :=
  ⟨rfl, rfl, rfl⟩

/-- C6 (amended): a throwing handler is always terminal, with or without
a schema (even though a validation failure alone is not): the Zod
implementation rejects with a `ParsingError` carrying the raw extracted
body (also on the validated path, where the handler may have received a
parser-transformed value), the handler's name (or "anonymous" for a
nameless handler) and the causing error; the TypeBox implementation
rejects with a plain `Error` whose message interpolates the causing
error and carries no structured fields. -/
theorem c6_amended_handler_throw_terminal {σ β To To2 : Type}
    (F : ZodFetcher σ β To) (resp : Response)
    (H : NamedFn β (Except (ZodError σ β) To)) (sch : Option σ)
    (E : Response → Except (ZodError σ β) β) (body : β)
    (herr : ZodError σ β)
    (G : TypeboxFetcher To2) (resp2 : Response)
    (H2 : NamedFn JValue (Except TbError To2)) (sch2 : Option TBSchema)
    (E2 : Response → Except TbError JValue) (body2 : JValue)
    (herr2 : TbError)
    (h1 : F.fetch F.input F.init = .ok resp)
    (h2 : mapGet F.handlers resp.status = some (H, sch, E))
    (h3 : E resp = .ok body)
    (h4 : (match sch with
           | none => H.fn body
           | some s =>
             match F.parser s body with
             | .failure _ => H.fn body
             | .success v => H.fn v) = .error herr)
    (g1 : G.fetch G.input G.init = .ok resp2)
    (g2 : mapGet G.handlers resp2.status = some (H2, sch2, E2))
    (g3 : E2 resp2 = .ok body2)
    (g4 : (match sch2 with
           | none => H2.fn body2
           | some s =>
             match G.parser s body2 with
             | .failure _ => H2.fn body2
             | .success v => H2.fn v) = .error herr2) :
    F.run = .error (.parsingError ("Handler execution failed: " ++ herr.message)
      body (jsNameOrAnonymous H.name) herr)
    ∧ G.run = .error (.plainError "Error"
      ("Handler side error, details: " ++ herr2.jsString)) := by
  constructor
  · cases sch with
    | none =>
        have h4r : H.fn body = .error herr := h4
        simp only [ZodFetcher.run, h1, h2, h3, h4r]
    | some s =>
        have h4m : (match F.parser s body with
          | .failure _ => H.fn body
          | .success v => H.fn v) = .error herr := h4
        cases hp : F.parser s body with
        | failure perr =>
            rw [hp] at h4m
            have h4r : H.fn body = .error herr := h4m
            simp only [ZodFetcher.run, h1, h2, h3, hp, h4r]
        | success v =>
            rw [hp] at h4m
            have h4r : H.fn v = .error herr := h4m
            simp only [ZodFetcher.run, h1, h2, h3, hp, h4r]
  · cases sch2 with
    | none =>
        have g4r : H2.fn body2 = .error herr2 := g4
        simp only [TypeboxFetcher.run, g1, g2, g3, g4r]
    | some s =>
        have g4m : (match G.parser s body2 with
          | .failure _ => H2.fn body2
          | .success v => H2.fn v) = .error herr2 := g4
        cases hp : G.parser s body2 with
        | failure perr =>
            rw [hp] at g4m
            have g4r : H2.fn body2 = .error herr2 := g4m
            simp only [TypeboxFetcher.run, g1, g2, g3, hp, g4r]
        | success v =>
            rw [hp] at g4m
            have g4r : H2.fn v = .error herr2 := g4m
            simp only [TypeboxFetcher.run, g1, g2, g3, hp, g4r]

/-- C6 witness: a throwing handler named "myHandler" on raw body 3. -/
theorem c6_amended_witness :
    zC6.run = .error (.parsingError "Handler execution failed: boom" 3
      "myHandler" (.plainError "Error" "boom"))
    ∧ tC6a.run = .error (.plainError "Error"
      "Handler side error, details: Error: boom") :=
  c6_amended_handler_throw_terminal zC6 _ _ none _ _ _ tC6a _ _ none _ _ _
    rfl rfl rfl rfl rfl rfl rfl rfl

/-- C7 counterexample: the claim says the Body-decode failure carries
the response descriptor and (best-effort) the raw response text, but the
TypeBox implementation's `JsonDeserializationError` carries only a
message: two fetchers whose responses have different raw body texts
("aaa" vs "bbb") produce the very same rejection value, which therefore
carries neither the response nor its text. -/
theorem c7_counterexample :
    tC7a.run = .error (.jsonDeserializationError
      "Could not deserialize response JSON, details: SyntaxError: Unexpected token")
    ∧ tC7b.run = .error (.jsonDeserializationError
      "Could not deserialize response JSON, details: SyntaxError: Unexpected token")
    ∧ tC7a.run = tC7b.run
    ∧ respAAA.bodyText = "aaa"
    ∧ respBBB.bodyText = "bbb" :=
  ⟨rfl, rfl, rfl, rfl, rfl⟩

/-- C7 (amended): when the matched entry's extractor throws, `run`
rejects with a terminal `JsonDeserializationError`; in the Zod
implementation it carries the response descriptor, the raw response text
(read from the clone taken before extraction) and the causing error; in
the TypeBox implementation it carries only a message interpolating the
causing error. -/
theorem c7_amended_body_decode_failure {σ β To To2 : Type}
    (F : ZodFetcher σ β To) (resp : Response)
    (H : NamedFn β (Except (ZodError σ β) To)) (sch : Option σ)
    (E : Response → Except (ZodError σ β) β) (je : ZodError σ β)
    (G : TypeboxFetcher To2) (resp2 : Response)
    (H2 : NamedFn JValue (Except TbError To2)) (sch2 : Option TBSchema)
    (E2 : Response → Except TbError JValue) (je2 : TbError)
    (h1 : F.fetch F.input F.init = .ok resp)
    (h2 : mapGet F.handlers resp.status = some (H, sch, E))
    (h3 : E resp = .error je)
    (g1 : G.fetch G.input G.init = .ok resp2)
    (g2 : mapGet G.handlers resp2.status = some (H2, sch2, E2))
    (g3 : E2 resp2 = .error je2) :
    F.run = .error (.jsonDeserializationError
      ("Could not deserialize response JSON: " ++ je.message)
      resp resp.bodyText je)
    ∧ G.run = .error (.jsonDeserializationError
      ("Could not deserialize response JSON, details: " ++ je2.jsString)) := by
  constructor
  · simp only [ZodFetcher.run, h1, h2, h3]
  · simp only [TypeboxFetcher.run, g1, g2, g3]

/-- C7 witness: a malformed JSON body makes the extractor throw; the Zod
rejection carries the response and its raw text, the TypeBox rejection a
message only. -/
theorem c7_amended_witness :
    zC7.run = .error (.jsonDeserializationError
      "Could not deserialize response JSON: Unexpected token"
      respBadJson "not json" (.plainError "SyntaxError" "Unexpected token"))
    ∧ tC7a.run = .error (.jsonDeserializationError
      "Could not deserialize response JSON, details: SyntaxError: Unexpected token") :=
  c7_amended_body_decode_failure zC7 _ _ none _ _ tC7a _ _ none _ _
    rfl rfl rfl rfl rfl rfl

end FetcherTS
